import Mathlib

/-!
Shallow embedding of the cooper-mvp pipeline (video_finder.py, scraper.py,
text_emotion_analyzer.py, audio_emotion_analyzer.py, correlator.py,
insight_generator.py) and verification of the specification claims.

Python floats are modelled as rationals, dictionaries as association lists
(Python dicts preserve insertion order, which association lists mirror),
and raised exceptions as `Except` error values.  External network calls
(HTTP responses, the Apify client, the OpenAI client) are modelled as
oracle inputs: the functions receive the observed response as a parameter.
-/

/-- JSON values, as produced by Python's json.loads. -/
inductive Json where
  | null
  | bool (b : Bool)
  | num (q : ℚ)
  | str (s : String)
  | arr (xs : List Json)
  | obj (kvs : List (String × Json))
deriving Repr

/-- Python exceptions that escape the functions modelled here. -/
inductive PyError where
  | valueError
  | typeError
deriving DecidableEq, Repr

/-- First-match lookup in an association list; model of Python dict access
(dict keys are unique, so first match is the match). -/
def alookup {α : Type} : List (String × α) → String → Option α
  | [], _ => none
  | p :: ps, k => if p.1 = k then some p.2 else alookup ps k

/-- exMapM f l sequences f over l in the Except monad, stopping at the
first error — the behaviour of a Python loop whose body may raise. -/
def exMapM {ε α β : Type} (f : α → Except ε β) : List α → Except ε (List β)
  | [] => .ok []
  | a :: as =>
    match f a with
    | .error e => .error e
    | .ok b =>
      match exMapM f as with
      | .error e => .error e
      | .ok bs => .ok (b :: bs)

/-- optMapM f l sequences f over l in the Option monad. -/
def optMapM {α β : Type} (f : α → Option β) : List α → Option (List β)
  | [] => some []
  | a :: as =>
    match f a with
    | none => none
    | some b =>
      match optMapM f as with
      | none => none
      | some bs => some (b :: bs)

/-- exFoldlM folds from the left in the Except monad. -/
def exFoldlM {ε α β : Type} (f : β → α → Except ε β) : β → List α → Except ε β
  | b, [] => .ok b
  | b, a :: as =>
    match f b a with
    | .error e => .error e
    | .ok b' => exFoldlM f b' as

/-- Whether an Except value is a success. -/
def exIsOk {ε α : Type} : Except ε α → Bool
  | .ok _ => true
  | .error _ => false

/-- Decimal string accepted by Python's float() constructor
(optional sign, digits, optional fractional part).  Exotic forms
(inf, nan, underscores, surrounding whitespace) are not modelled. -/
def parseFloatChars (cs : List Char) : Option ℚ :=
  let (sgn, cs) :=
    match cs with
    | '-' :: rest => ((-1 : ℚ), rest)
    | '+' :: rest => ((1 : ℚ), rest)
    | _ => ((1 : ℚ), cs)
  let intPart := cs.takeWhile Char.isDigit
  let rest := cs.dropWhile Char.isDigit
  let digitsVal : List Char → ℕ := fun ds => ds.foldl (fun a c => 10 * a + (c.toNat - 48)) 0
  match rest with
  | [] =>
    if intPart.isEmpty then none
    else some (sgn * (digitsVal intPart : ℚ))
  | '.' :: frac =>
    if frac.all Char.isDigit ∧ ¬(intPart.isEmpty ∧ frac.isEmpty) then
      some (sgn * ((digitsVal intPart : ℚ) + (digitsVal frac : ℚ) / ((10 : ℚ) ^ frac.length)))
    else none
  | _ => none

/-- Python float(s) on a string. -/
def parseFloat? (s : String) : Option ℚ := parseFloatChars s.toList

/-- Python's float() builtin applied to a JSON value: numbers pass through,
booleans coerce (float(True) = 1.0), numeric strings parse, everything
else raises (ValueError for bad strings, TypeError for None/list/dict). -/
def pyFloat : Json → Except PyError ℚ
  | .num q => .ok q
  | .bool b => .ok (if b then 1 else 0)
  | .str s =>
    match parseFloat? s with
    | some q => .ok q
    | none => .error .valueError
  | .null => .error .typeError
  | .arr _ => .error .typeError
  | .obj _ => .error .typeError

/-- Python round() to an integer: round-half-to-even. -/
def pyRoundInt (q : ℚ) : ℤ :=
  let f := ⌊q⌋
  let r := q - (f : ℚ)
  if r < 1 / 2 then f
  else if 1 / 2 < r then f + 1
  else if f % 2 = 0 then f else f + 1

/-- Python round(x, 2). -/
def pyRound2 (q : ℚ) : ℚ := (pyRoundInt (q * 100) : ℚ) / 100

/-!
## VideoFinder (src/video_finder.py)

is_valid_tiktok_url matches the Python regex
r-quote https?://(www|vm).tiktok.com/[@a-zA-Z0-9_-./]+$ anchored with
re.match.  In Python `$` also matches just before a single newline at the
very end of the string, so the tail may carry one trailing newline.
-/

/-- Character class [@a-zA-Z0-9_\-./] of the URL path. -/
def isPathChar (c : Char) : Bool :=
  c.isAlpha || c.isDigit || c = '@' || c = '_' || c = '-' || c = '.' || c = '/'

/-- Remaining path after its first character: every character is a path
character, except that a single final newline is allowed (Python `$`). -/
def restOk : List Char → Bool
  | [] => true
  | [c] => isPathChar c || c = '\n'
  | c :: c' :: cs => isPathChar c && restOk (c' :: cs)

/-- Non-empty path followed by the Python end-of-string anchor. -/
def pathOk : List Char → Bool
  | [] => false
  | c :: cs => isPathChar c && restOk cs

/-- All characters are path characters (strict grammar, no newline). -/
def allPathB : List Char → Bool
  | [] => true
  | c :: cs => isPathChar c && allPathB cs

/-- Non-empty path of path characters only (the spec's grammar). -/
def pathStrictOk : List Char → Bool
  | [] => false
  | c :: cs => isPathChar c && allPathB cs

/-- Drop a single trailing newline if present. -/
def dropTrailNl : List Char → List Char
  | [] => []
  | [c] => if c = '\n' then [] else [c]
  | c :: c' :: cs => c :: dropTrailNl (c' :: cs)

/-- Does the character list end in a newline? -/
def endsNl : List Char → Bool
  | [] => false
  | [c] => c = '\n'
  | _ :: c' :: cs => endsNl (c' :: cs)

/-- Strip a literal character-list prefix, returning the remainder. -/
def stripPrefixL : List Char → List Char → Option (List Char)
  | [], cs => some cs
  | _ :: _, [] => none
  | p :: ps, c :: cs => if c = p then stripPrefixL ps cs else none

def httpsPfx : List Char := ['h', 't', 't', 'p', 's', ':', '/', '/']

def httpPfx : List Char := ['h', 't', 't', 'p', ':', '/', '/']

def wwwPfx : List Char :=
  ['w', 'w', 'w', '.', 't', 'i', 'k', 't', 'o', 'k', '.', 'c', 'o', 'm', '/']

def vmPfx : List Char :=
  ['v', 'm', '.', 't', 'i', 'k', 't', 'o', 'k', '.', 'c', 'o', 'm', '/']

/-- Strip the scheme https:// or http:// (regex alternation https?://). -/
def stripScheme (cs : List Char) : Option (List Char) :=
  match stripPrefixL httpsPfx cs with
  | some r => some r
  | none => stripPrefixL httpPfx cs

/-- Strip the host alternation (www|vm).tiktok.com followed by /. -/
def stripHost (cs : List Char) : Option (List Char) :=
  match stripPrefixL wwwPfx cs with
  | some r => some r
  | none => stripPrefixL vmPfx cs

/-- The path-part remainder of the URL after scheme and host, if they match. -/
def urlTail (cs : List Char) : Option (List Char) :=
  match stripScheme cs with
  | some r => stripHost r
  | none => none

/-- VideoFinder.is_valid_tiktok_url: bool(re.match(pattern, url)). -/
def VideoFinder.is_valid_tiktok_url (url : String) : Bool :=
  match urlTail url.toList with
  | some r => pathOk r
  | none => false

/-- The platform URL grammar exactly as the spec words it: scheme http or
https, host exactly www.tiktok.com or vm.tiktok.com, non-empty path over
letters, digits and the characters @ _ - . / (no trailing newline). -/
def grammarValid (url : String) : Bool :=
  match urlTail url.toList with
  | some r => pathStrictOk r
  | none => false

/-- Does the string end in a newline character? -/
def strEndsNl (u : String) : Bool := endsNl u.toList

/-- The string with a single trailing newline removed, if present. -/
def strDropNl (u : String) : String := String.mk (dropTrailNl u.toList)

def cooking_urls : List String :=
  ["https://www.tiktok.com/cooking/video1", "https://www.tiktok.com/cooking/video2",
   "https://www.tiktok.com/cooking/video3", "https://www.tiktok.com/cooking/video4",
   "https://www.tiktok.com/cooking/video5", "https://www.tiktok.com/cooking/video6",
   "https://www.tiktok.com/cooking/video7", "https://www.tiktok.com/cooking/video8",
   "https://www.tiktok.com/cooking/video9", "https://www.tiktok.com/cooking/video10"]

def fitness_urls : List String :=
  ["https://www.tiktok.com/fitness/video1", "https://www.tiktok.com/fitness/video2",
   "https://www.tiktok.com/fitness/video3", "https://www.tiktok.com/fitness/video4",
   "https://www.tiktok.com/fitness/video5", "https://www.tiktok.com/fitness/video6",
   "https://www.tiktok.com/fitness/video7", "https://www.tiktok.com/fitness/video8",
   "https://www.tiktok.com/fitness/video9", "https://www.tiktok.com/fitness/video10"]

/-- self._video_mapping.get(topic, []). -/
def video_mapping (topic : String) : List String :=
  if topic = "cooking" then cooking_urls
  else if topic = "fitness" then fitness_urls
  else []

/-- VideoFinder.get_videos.  `if direct_url:` is Python truthiness, so both
None and the empty string fall through to the topic lookup. -/
def VideoFinder.get_videos (topic : String) (direct_url : Option String) : List String :=
  match direct_url with
  | some u =>
    if u ≠ "" then
      if VideoFinder.is_valid_tiktok_url u then [u] else []
    else video_mapping topic
  | none => video_mapping topic

/-!
## Emotion analyzers (src/text_emotion_analyzer.py, src/audio_emotion_analyzer.py)

The OpenAI chat completion is an oracle input.  Its observable outcome for
the parsing code is one of: the response object lacks the expected
choices/message structure (AttributeError/IndexError — caught), the message
content is not valid JSON (json.JSONDecodeError — caught), or it parses to
a JSON value.  Emotion score dicts are association lists String x Rat.
-/

/-- Observed outcome of the classification API call. -/
inductive ApiResponse where
  | badStructure
  | badJson
  | json (j : Json)

/-- The loop `for key in result: result[key] = float(result[key])` on a
parsed JSON object: coerce every value with float(), first failure raises.
Iterating a non-dict, non-list JSON value raises TypeError; list responses
are modelled as TypeError as well (their elements would be used as indices,
raising TypeError for the non-integer elements produced here). -/
def coerceScores : Json → Except PyError (List (String × ℚ))
  | .obj kvs =>
    exMapM (fun p =>
      match pyFloat p.2 with
      | .ok q => .ok (p.1, q)
      | .error e => .error e) kvs
  | _ => .error .typeError

/-- Fallback dict of TextEmotionAnalyzer.analyze (insertion order of the
source literal). -/
def textFallback : List (String × ℚ) :=
  [("joy", 0), ("sadness", 0), ("anger", 0), ("fear", 0),
   ("surprise", 0), ("disgust", 0), ("neutral", 1)]

/-- Fallback dict of AudioEmotionAnalyzer.analyze (neutral listed first). -/
def audioFallback : List (String × ℚ) :=
  [("neutral", 1), ("joy", 0), ("sadness", 0), ("anger", 0),
   ("fear", 0), ("surprise", 0), ("disgust", 0)]

/-- Dummy-mode scores of TextEmotionAnalyzer.analyze: five labels only. -/
def textDummyScores : List (String × ℚ) :=
  [("joy", 8 / 10), ("sadness", 1 / 10), ("anger", 5 / 100),
   ("fear", 3 / 100), ("surprise", 2 / 100)]

/-- Dummy-mode scores of AudioEmotionAnalyzer.analyze: all seven labels. -/
def audioDummyScores : List (String × ℚ) :=
  [("joy", 7 / 10), ("sadness", 1 / 10), ("anger", 1 / 10),
   ("fear", 5 / 100), ("surprise", 5 / 100), ("disgust", 0), ("neutral", 0)]

/-- Shared live-path parsing of both analyzers: the caught exceptions
(JSONDecodeError, AttributeError, IndexError) yield the fallback dict;
coercion errors (ValueError/TypeError from float()) propagate. -/
def analyzeParse (resp : ApiResponse) (fallback : List (String × ℚ)) :
    Except PyError (List (String × ℚ)) :=
  match resp with
  | .badStructure => .ok fallback
  | .badJson => .ok fallback
  | .json j =>
    match coerceScores j with
    | .ok scores => .ok scores
    | .error e => .error e

/-- TextEmotionAnalyzer.analyze: api_key == "dummy" short-circuits to the
canned five-label dict; otherwise the API response is parsed. -/
def TextEmotionAnalyzer.analyze (api_key : String) (texts : List String)
    (resp : ApiResponse) : Except PyError (List (String × ℚ)) :=
  if api_key = "dummy" then .ok textDummyScores
  else
    let _combined := String.intercalate "\n" texts
    analyzeParse resp textFallback

/-- AudioEmotionAnalyzer._transcribe_audio: simulated transcript when
api_key == "dummy"; otherwise the transcription service result, or the
fixed fallback string when the service call raised (modelled by none). -/
def AudioEmotionAnalyzer.transcribe_audio (api_key : String)
    (serviceResult : Option String) : String :=
  if api_key = "dummy" then
    "I'm really excited about this project. It's going to be amazing!"
  else
    match serviceResult with
    | some t => t
    | none => "Error transcribing audio. Using fallback text for analysis."

/-- AudioEmotionAnalyzer.analyze: both keys == "dummy" short-circuits to
the canned seven-label dict; an empty transcript yields the fallback dict;
otherwise the classification response is parsed as in the text analyzer. -/
def AudioEmotionAnalyzer.analyze (api_key openai_api_key : String)
    (serviceResult : Option String) (resp : ApiResponse) :
    Except PyError (List (String × ℚ)) :=
  if api_key = "dummy" ∧ openai_api_key = "dummy" then .ok audioDummyScores
  else
    let transcript := AudioEmotionAnalyzer.transcribe_audio api_key serviceResult
    if transcript = "" then .ok audioFallback
    else analyzeParse resp audioFallback

/-!
## Video records and Correlator (src/scraper.py models, src/correlator.py)
-/

/-- VideoData (pydantic model in src/scraper.py): url, comments, and a
metadata dict with arbitrary JSON values. -/
structure VideoData where
  url : String
  comments : List String
  metadata : List (String × Json)

def emotions : List String :=
  ["joy", "sadness", "anger", "fear", "surprise", "disgust", "neutral"]

def metadata_fields : List String := ["likes", "comments", "shares", "views"]

/-- dict.get(k, 0.0) on an emotion-score dict. -/
def scoreGet (d : List (String × ℚ)) (k : String) : ℚ := (alookup d k).getD 0

/-- Merged emotion scores: simple average per emotion label. -/
def combinedScores (text_scores audio_scores : List (String × ℚ)) :
    List (String × ℚ) :=
  emotions.map (fun e => (e, (scoreGet text_scores e + scoreGet audio_scores e) / 2))

/-- One step of the metadata accumulation: add float(metadata[field]) when
the field is present (float() may raise), keep the accumulator otherwise. -/
def metaFieldAdd (v : VideoData) (acc : ℚ) (f : String) : Except PyError ℚ :=
  match alookup v.metadata f with
  | some x =>
    match pyFloat x with
    | .ok q => .ok (acc + q)
    | .error e => .error e
  | none => .ok acc

/-- Add one video's contributions to the running per-field sums, iterating
the fields in order (the inner loop of Correlator.compute). -/
def metaAddVideo (acc : List (String × ℚ)) (v : VideoData) :
    Except PyError (List (String × ℚ)) :=
  exMapM (fun p =>
    match metaFieldAdd v p.2 p.1 with
    | .ok s => .ok (p.1, s)
    | .error e => .error e) acc

/-- Per-field sums over all videos, videos in the outer loop. -/
def metaSums (video_data : List VideoData) : Except PyError (List (String × ℚ)) :=
  exFoldlM metaAddVideo (metadata_fields.map (fun f => (f, 0))) video_data

/-- Correlator.compute.  Raises (returns .error) exactly where the Python
code raises: float() applied to a non-coercible metadata value. -/
def Correlator.compute (video_data : List VideoData)
    (text_scores audio_scores : List (String × ℚ)) :
    Except PyError (List (String × ℚ)) :=
  let combined := combinedScores text_scores audio_scores
  if video_data.length = 0 then .ok []
  else
    match metaSums video_data with
    | .error e => .error e
    | .ok sums =>
      let means := sums.map (fun p => (p.1, p.2 / (video_data.length : ℚ)))
      let vs := combined.flatMap (fun ec =>
        means.map (fun fm =>
          (ec.1 ++ "_vs_" ++ fm.1,
            if 0 < fm.2 then pyRound2 (ec.2 / fm.2 * 100) else 0)))
      let comment_count := (video_data.map (fun v => v.comments.length)).sum
      let ratios :=
        if 0 < comment_count then
          combined.map (fun ec =>
            (ec.1 ++ "_comment_ratio", pyRound2 (ec.2 * 100 / (comment_count : ℚ))))
        else []
      .ok (vs ++ ratios)

/-- float() coercion with errors read as 0; used only by the spec-side
definitions, which are compared with the code under the hypothesis that
every metadata value coerces. -/
def scalarVal (x : Json) : ℚ :=
  match pyFloat x with
  | .ok q => q
  | .error _ => 0

/-- A single record's contribution to a field (missing field contributes 0). -/
def fieldContrib (v : VideoData) (f : String) : ℚ :=
  match alookup v.metadata f with
  | some x => scalarVal x
  | none => 0

/-- Sum of a field over all records. -/
def fieldSum (video_data : List VideoData) (f : String) : ℚ :=
  (video_data.map (fun v => fieldContrib v f)).sum

/-- Modelled from the spec: the mean of a metadata field, summing missing
fields as 0 and dividing by the total record count. -/
def fieldMean (video_data : List VideoData) (f : String) : ℚ :=
  fieldSum video_data f / (video_data.length : ℚ)

/-- Total comment count across all records. -/
def totalComments (video_data : List VideoData) : ℕ :=
  (video_data.map (fun v => v.comments.length)).sum

/-- Combined score of one emotion (spec wording). -/
def combinedOf (text_scores audio_scores : List (String × ℚ)) (e : String) : ℚ :=
  (scoreGet text_scores e + scoreGet audio_scores e) / 2

/-- Modelled from the spec: the correlation map as the spec words it —
for every emotion and field the key emotion_vs_field with
round(combined/fieldMean*100, 2) when the mean is positive and 0.0
otherwise, plus the seven emotion_comment_ratio keys exactly when the
total comment count is positive. -/
def correlateSpec (video_data : List VideoData)
    (text_scores audio_scores : List (String × ℚ)) : List (String × ℚ) :=
  if video_data.length = 0 then []
  else
    (emotions.flatMap (fun e => metadata_fields.map (fun f =>
      (e ++ "_vs_" ++ f,
        if 0 < fieldMean video_data f then
          pyRound2 (combinedOf text_scores audio_scores e / fieldMean video_data f * 100)
        else 0))))
    ++ (if 0 < totalComments video_data then
          emotions.map (fun e =>
            (e ++ "_comment_ratio",
              pyRound2 (combinedOf text_scores audio_scores e * 100 /
                (totalComments video_data : ℚ))))
        else [])

/-- All metadata values of all records coerce under float(). -/
def MetaOk (video_data : List VideoData) : Prop :=
  ∀ v ∈ video_data, ∀ p ∈ v.metadata, exIsOk (pyFloat p.2) = true

instance : DecidablePred MetaOk := fun vd =>
  inferInstanceAs (Decidable (∀ v ∈ vd, ∀ p ∈ v.metadata, exIsOk (pyFloat p.2) = true))

/-!
## Scraper (src/scraper.py)

The two backends are modelled separately, following the `if
self.webhook_url:` branches of start_scrape and get_result.  HTTP traffic
and the Apify client are oracle inputs.  Exception classes of scraper.py
become ScrapeError constructors carrying str(e).
-/

/-- RequestError, ApifyClientError, TimeoutError and (pydantic)
ValidationError as raised by scraper.py, with their message strings. -/
inductive ScrapeError where
  | requestError (msg : String)
  | apifyClientError (msg : String)
  | timeoutError (msg : String)
  | validationError (msg : String)
deriving DecidableEq, Repr

/-- str(e) of a ScrapeError. -/
def ScrapeError.msg : ScrapeError → String
  | .requestError m => m
  | .apifyClientError m => m
  | .timeoutError m => m
  | .validationError m => m

/-- Constructor defaults of Scraper.__init__. -/
def Scraper.default_poll_interval : ℕ := 5

def Scraper.default_timeout : ℕ := 300

/-- Pydantic validation of one dataset item into a VideoData record:
an object with a string url, a list of string comments, and an object
metadata; anything else fails validation. -/
def parseVideoItem : Json → Option VideoData
  | .obj kvs =>
    match alookup kvs "url", alookup kvs "comments", alookup kvs "metadata" with
    | some (.str u), some (.arr cs), some (.obj m) =>
      match optMapM (fun c => match c with | .str s => some s | _ => none) cs with
      | some strs => some ⟨u, strs, m⟩
      | none => none
    | _, _, _ => none
  | _ => none

/-- Scraper._parse_result applied to the items list: each item must
validate as a VideoData, otherwise the whole batch fails. -/
def Scraper.parse_result (items : List Json) : Except ScrapeError (List VideoData) :=
  match optMapM parseVideoItem items with
  | some vs => .ok vs
  | none => .error (.validationError "Failed to parse result")

/-- Outcome of the webhook POST in start_scrape: the request raised an
HTTP error, or a response arrived whose body is (or is not) valid JSON. -/
inductive WebhookPost where
  | httpError (msg : String)
  | resp (body : Option Json)

/-- Scraper.start_scrape, webhook branch.  HTTP errors become
RequestError; a non-dict or unparsable body raises inside the try and is
wrapped as ApifyClientError; a JSON object returns data.get("job_id"),
which is None — not an error — when the key is absent. -/
def Scraper.start_scrape_webhook (post : WebhookPost) :
    Except ScrapeError (Option Json) :=
  match post with
  | .httpError m => .error (.requestError ("Failed to start scrape job: " ++ m))
  | .resp none =>
    .error (.apifyClientError "Failed to start scrape job: response body is not valid JSON")
  | .resp (some (.obj kvs)) => .ok (alookup kvs "job_id")
  | .resp (some _) =>
    .error (.apifyClientError "Failed to start scrape job: response body has no attribute get")

/-- Scraper.start_scrape, Apify branch.  The task call either raises
(msg), returns no run data (None — and an empty dict is equally falsy), or
returns a run dict; run.get("id") is None — not an error — when absent.
The inner ApifyClientError raise is itself caught by the enclosing
`except Exception` and re-wrapped. -/
def Scraper.start_scrape_apify
    (call : Except String (Option (List (String × Json)))) :
    Except ScrapeError (Option Json) :=
  match call with
  | .error m => .error (.apifyClientError ("Failed to start scrape job: " ++ m))
  | .ok none =>
    .error (.apifyClientError
      "Failed to start scrape job: Failed to start task, no run data returned")
  | .ok (some run) =>
    if run.isEmpty then
      .error (.apifyClientError
        "Failed to start scrape job: Failed to start task, no run data returned")
    else .ok (alookup run "id")

/-- Observed outcome of one webhook status poll (_check_status): the GET
or JSON decode raised — re-raised as RequestError/ApifyClientError, which
the polling loop's `except httpx.HTTPError` does NOT catch — or a JSON
body whose "status" entry is the given optional string (non-string
statuses never equal "completed" and are folded into none). -/
inductive PollResp where
  | fail (e : ScrapeError)
  | ok (status : Option String) (items : List Json)

/-- Result of the webhook branch of get_result.  Time is discrete: the
poll at elapsed time t is instantaneous and is followed by a sleep of
poll_interval; the while condition re-checks the elapsed time. -/
inductive WebhookOutcome where
  | finished (r : Except ScrapeError (List VideoData)) (t : ℕ)
  | raised (e : ScrapeError) (t : ℕ)
  | timedOut (t : ℕ)
  | fuelOut

/-- The webhook polling loop of Scraper.get_result, with explicit fuel
(the loop body runs at most timeout + 1 times when poll_interval ≥ 1,
since each iteration advances elapsed time by poll_interval).  Returns
the list of times at which a status poll was issued, and the outcome. -/
def pollLoop (resp : ℕ → PollResp) (timeout poll_interval : ℕ) :
    ℕ → ℕ → List ℕ × WebhookOutcome
  | 0, t =>
    if timeout ≤ t then ([], .timedOut t)
    else
      match resp t with
      | .fail e => ([t], .raised e t)
      | .ok st items =>
        if st = some "completed" then
          ([t], .finished (Scraper.parse_result items) t)
        else ([t], .fuelOut)
  | fuel + 1, t =>
    if timeout ≤ t then ([], .timedOut t)
    else
      match resp t with
      | .fail e => ([t], .raised e t)
      | .ok st items =>
        if st = some "completed" then
          ([t], .finished (Scraper.parse_result items) t)
        else
          let r := pollLoop resp timeout poll_interval fuel (t + poll_interval)
          (t :: r.1, r.2)

/-- Scraper.get_result, webhook branch: poll from elapsed time 0 until
the status is "completed" or the timeout elapses. -/
def Scraper.get_result_webhook (resp : ℕ → PollResp) (timeout poll_interval : ℕ) :
    List ℕ × WebhookOutcome :=
  pollLoop resp timeout poll_interval (timeout + 1) 0

/-- run.get("status", "UNKNOWN") restricted to string statuses. -/
def runStatus (run : List (String × Json)) : String :=
  match alookup run "status" with
  | some (.str s) => s
  | _ => "UNKNOWN"

/-- The try-block of the Apify branch of Scraper.get_result, before the
enclosing exception handlers. `wait` is the outcome of
run_client.wait_for_finish(wait_secs=timeout): an exception, None, or the
run dict.  `items` maps a dataset id to that dataset's item list. -/
def Scraper.get_result_apify_try (job_id : String)
    (wait : Except ScrapeError (Option (List (String × Json))))
    (items : String → List Json) : Except ScrapeError (List VideoData) :=
  match wait with
  | .error e => .error e
  | .ok none => .error (.apifyClientError ("Failed to get run data for job " ++ job_id))
  | .ok (some run) =>
    if run.isEmpty then
      .error (.apifyClientError ("Failed to get run data for job " ++ job_id))
    else if runStatus run = "SUCCEEDED" then
      match alookup run "defaultDatasetId" with
      | some (.str did) =>
        if did = "" then .error (.apifyClientError "No default dataset found in the run")
        else Scraper.parse_result (items did)
      | _ => .error (.apifyClientError "No default dataset found in the run")
    else
      .error (.apifyClientError ("Run failed with status: " ++ runStatus run))

/-- The exception handlers of the Apify branch: TimeoutError is re-raised
unchanged, every other exception is wrapped in a fresh ApifyClientError —
including the ApifyClientError raises of the try-block itself. -/
def Scraper.get_result_apify (job_id : String)
    (wait : Except ScrapeError (Option (List (String × Json))))
    (items : String → List Json) : Except ScrapeError (List VideoData) :=
  match Scraper.get_result_apify_try job_id wait items with
  | .ok vs => .ok vs
  | .error (.timeoutError m) => .error (.timeoutError m)
  | .error e =>
    .error (.apifyClientError ("Error retrieving run results: " ++ e.msg))

/-!
## InsightGenerator (src/insight_generator.py)
-/

/-- The canned insight list returned when no OpenAI client is configured. -/
def cannedInsights : List String :=
  ["Videos with high joy scores receive 25% more likes than average.",
   "Content with surprise elements generates 40% more comments.",
   "Neutral content performs better for long-term viewer retention."]

/-- InsightGenerator.generate.  hasClient is whether self.client is set
(a live, non-sentinel OpenAI key); liveInsights abstracts the insights
list the live branch extracts before its final truncation.  Every branch
ends in a [:n_insights] truncation and none pads. -/
def InsightGenerator.generate (hasClient : Bool) (liveInsights : List String)
    (correlations : List (String × ℚ)) (n_insights : ℕ) : List String :=
  if hasClient then
    let _correlation_text :=
      String.intercalate "\n" (correlations.map (fun p => p.1 ++ ": " ++ toString p.2))
    liveInsights.take n_insights
  else cannedInsights.take n_insights

/-!
## General lemmas
-/

instance {ε α : Type} [DecidableEq ε] [DecidableEq α] : DecidableEq (Except ε α) :=
  fun x y =>
    match x, y with
    | .ok a, .ok b =>
      if h : a = b then .isTrue (congrArg Except.ok h)
      else .isFalse (fun hc => h (Except.ok.inj hc))
    | .error a, .error b =>
      if h : a = b then .isTrue (congrArg Except.error h)
      else .isFalse (fun hc => h (Except.error.inj hc))
    | .ok _, .error _ => .isFalse (fun hc => Except.noConfusion hc)
    | .error _, .ok _ => .isFalse (fun hc => Except.noConfusion hc)

theorem exMapM_ok {ε α β : Type} (f : α → Except ε β) (g : α → β) :
    ∀ (l : List α), (∀ a ∈ l, f a = .ok (g a)) → exMapM f l = .ok (l.map g) := by
  intro l
  induction l with
  | nil => intro _; rfl
  | cons a as ih =>
    intro h
    have ha : f a = .ok (g a) := h a (List.mem_cons_self a as)
    have has : exMapM f as = .ok (as.map g) :=
      ih (fun b hb => h b (List.mem_cons_of_mem a hb))
    simp [exMapM, ha, has]

theorem alookup_mem {α : Type} {x : α} :
    ∀ {d : List (String × α)} {k : String}, alookup d k = some x → (k, x) ∈ d := by
  intro d
  induction d with
  | nil => intro k h; simp [alookup] at h
  | cons p ps ih =>
    intro k h
    by_cases hk : p.1 = k
    · rw [alookup, if_pos hk] at h
      have : p = (k, x) := by
        cases p with
        | mk a b => simp_all
      rw [this] at *
      exact List.mem_cons_self _ _
    · rw [alookup, if_neg hk] at h
      exact List.mem_cons_of_mem _ (ih h)

/-!
## Correlator lemmas: the accumulation loop equals the per-field sums
-/

theorem metaFieldAdd_ok (v : VideoData)
    (hv : ∀ p ∈ v.metadata, exIsOk (pyFloat p.2) = true) (s : ℚ) (f : String) :
    metaFieldAdd v s f = .ok (s + fieldContrib v f) := by
  unfold metaFieldAdd fieldContrib
  cases hx : alookup v.metadata f with
  | none => simp
  | some x =>
    have hmem : (f, x) ∈ v.metadata := alookup_mem hx
    have hok := hv (f, x) hmem
    cases hq : pyFloat x with
    | error e => rw [hq] at hok; simp [exIsOk] at hok
    | ok q => simp [scalarVal, hq]

theorem metaAddVideo_ok (v : VideoData)
    (hv : ∀ p ∈ v.metadata, exIsOk (pyFloat p.2) = true) (acc : List (String × ℚ)) :
    metaAddVideo acc v = .ok (acc.map (fun p => (p.1, p.2 + fieldContrib v p.1))) := by
  unfold metaAddVideo
  exact exMapM_ok _ _ acc (fun p _ => by rw [metaFieldAdd_ok v hv])

theorem fieldSum_cons (v : VideoData) (vs : List VideoData) (f : String) :
    fieldSum (v :: vs) f = fieldContrib v f + fieldSum vs f := by
  simp [fieldSum]

theorem metaFold_eq (vd : List VideoData) :
    MetaOk vd → ∀ (c : String → ℚ),
      exFoldlM metaAddVideo (metadata_fields.map (fun f => (f, c f))) vd =
        .ok (metadata_fields.map (fun f => (f, c f + fieldSum vd f))) := by
  induction vd with
  | nil =>
    intro _ c
    simp [exFoldlM, fieldSum]
  | cons v vs ih =>
    intro h c
    have hv : ∀ p ∈ v.metadata, exIsOk (pyFloat p.2) = true :=
      h v (List.mem_cons_self v vs)
    have hvs : MetaOk vs := fun w hw => h w (List.mem_cons_of_mem v hw)
    rw [exFoldlM, metaAddVideo_ok v hv]
    rw [List.map_map]
    have hcomp :
        ((fun p : String × ℚ => (p.1, p.2 + fieldContrib v p.1)) ∘
          (fun f => (f, c f))) = fun f => (f, c f + fieldContrib v f) := rfl
    rw [hcomp]
    show exFoldlM metaAddVideo
        (metadata_fields.map (fun f => (f, c f + fieldContrib v f))) vs = _
    rw [ih hvs (fun f => c f + fieldContrib v f)]
    simp [fieldSum_cons, add_assoc]

theorem metaSums_eq (vd : List VideoData) (h : MetaOk vd) :
    metaSums vd = .ok (metadata_fields.map (fun f => (f, fieldSum vd f))) := by
  have := metaFold_eq vd h (fun _ => 0)
  simpa [metaSums] using this

/-- The code's Correlator.compute refines the spec's correlation map on
every input whose metadata values all coerce under float(). -/
theorem compute_eq_spec (vd : List VideoData) (ts as : List (String × ℚ))
    (h : MetaOk vd) :
    Correlator.compute vd ts as = .ok (correlateSpec vd ts as) := by
  by_cases hvd : vd.length = 0
  · rw [Correlator.compute, correlateSpec, if_pos hvd, if_pos hvd]
  · rw [Correlator.compute, correlateSpec, if_neg hvd, if_neg hvd]
    rw [metaSums_eq vd h]
    have hmeans :
        (metadata_fields.map (fun f => (f, fieldSum vd f))).map
          (fun p => (p.1, p.2 / (vd.length : ℚ))) =
        metadata_fields.map (fun f => (f, fieldMean vd f)) := by
      rw [List.map_map]; rfl
    simp only [hmeans]
    have hcombined : combinedScores ts as =
        emotions.map (fun e => (e, combinedOf ts as e)) := rfl
    rw [hcombined, List.flatMap_map, List.map_map]
    rfl

/-!
## Polling loop lemmas
-/

/-- When every poll succeeds with a non-"completed" status, the webhook
polling loop — given enough fuel — raises the timeout at the first checked
time at or beyond the deadline, and every poll happens strictly before
the deadline. -/
theorem pollLoop_timedOut (resp : ℕ → PollResp) (timeout poll_interval : ℕ)
    (hi : 0 < poll_interval)
    (hs : ∀ t, ∃ st items, resp t = .ok st items ∧ st ≠ some "completed") :
    ∀ (fuel t : ℕ), timeout < t + fuel → t < timeout + poll_interval →
      ∃ T ps, pollLoop resp timeout poll_interval fuel t = (ps, .timedOut T) ∧
        timeout ≤ T ∧ T < timeout + poll_interval ∧ ∀ p ∈ ps, p < timeout := by
  intro fuel
  induction fuel with
  | zero =>
    intro t hf _ht
    have hle : timeout ≤ t := by omega
    refine ⟨t, [], ?_, hle, by omega, by simp⟩
    rw [pollLoop, if_pos hle]
  | succ fuel ih =>
    intro t hf ht
    by_cases hle : timeout ≤ t
    · refine ⟨t, [], ?_, hle, by omega, by simp⟩
      rw [pollLoop, if_pos hle]
    · have hlt : t < timeout := by omega
      obtain ⟨st, items, hresp, hne⟩ := hs t
      obtain ⟨T, ps, heq, h1, h2, h3⟩ :=
        ih (t + poll_interval) (by omega) (by omega)
      refine ⟨T, t :: ps, ?_, h1, h2, ?_⟩
      · rw [pollLoop, if_neg hle]
        simp only [hresp, if_neg hne, heq]
      · intro p hp
        rcases List.mem_cons.mp hp with hpt | hps
        · omega
        · exact h3 p hps

/-!
## URL validator lemmas: the Python regex equals the spec grammar up to a
single trailing newline (the semantics of `$` under re.match)
-/

/-- The four full scheme-plus-host prefixes generated by the regex
alternations https?://(www|vm).tiktok.com/. -/
def fullPfxs : List (List Char) :=
  [httpsPfx ++ wwwPfx, httpsPfx ++ vmPfx, httpPfx ++ wwwPfx, httpPfx ++ vmPfx]

theorem stripPrefixL_some :
    ∀ (p cs r : List Char), stripPrefixL p cs = some r → cs = p ++ r := by
  intro p
  induction p with
  | nil =>
    intro cs r h
    simp [stripPrefixL] at h
    simp [h]
  | cons a p' ih =>
    intro cs r h
    cases cs with
    | nil => simp [stripPrefixL] at h
    | cons c cs' =>
      rw [stripPrefixL] at h
      by_cases hc : c = a
      · rw [if_pos hc] at h
        rw [List.cons_append, ← ih cs' r h, hc]
      · rw [if_neg hc] at h
        exact absurd h (by simp)

theorem stripScheme_some (cs m : List Char) (h : stripScheme cs = some m) :
    cs = httpsPfx ++ m ∨ cs = httpPfx ++ m := by
  rw [stripScheme] at h
  cases h1 : stripPrefixL httpsPfx cs with
  | some x =>
    rw [h1] at h
    cases h
    exact Or.inl (stripPrefixL_some _ _ _ h1)
  | none =>
    rw [h1] at h
    exact Or.inr (stripPrefixL_some _ _ _ h)

theorem stripHost_some (cs m : List Char) (h : stripHost cs = some m) :
    cs = wwwPfx ++ m ∨ cs = vmPfx ++ m := by
  rw [stripHost] at h
  cases h1 : stripPrefixL wwwPfx cs with
  | some x =>
    rw [h1] at h
    cases h
    exact Or.inl (stripPrefixL_some _ _ _ h1)
  | none =>
    rw [h1] at h
    exact Or.inr (stripPrefixL_some _ _ _ h)

theorem urlTail_some_decomp (cs r : List Char) (h : urlTail cs = some r) :
    ∃ P ∈ fullPfxs, cs = P ++ r := by
  rw [urlTail] at h
  cases hsch : stripScheme cs with
  | none => rw [hsch] at h; exact absurd h (by simp)
  | some m =>
    rw [hsch] at h
    rcases stripScheme_some cs m hsch with hs | hs <;>
      rcases stripHost_some m r h with hh | hh <;>
        subst hs <;> subst hh <;>
          simp [fullPfxs, List.append_assoc]

theorem urlTail_append : ∀ P ∈ fullPfxs, ∀ r, urlTail (P ++ r) = some r := by
  intro P hP r
  simp [fullPfxs] at hP
  rcases hP with rfl | rfl | rfl | rfl <;> rfl

theorem endsNl_cons (a : Char) (cs : List Char) (h : cs ≠ []) :
    endsNl (a :: cs) = endsNl cs := by
  cases cs with
  | nil => exact absurd rfl h
  | cons b bs => rfl

theorem dropTrailNl_cons (a : Char) (cs : List Char) (h : cs ≠ []) :
    dropTrailNl (a :: cs) = a :: dropTrailNl cs := by
  cases cs with
  | nil => exact absurd rfl h
  | cons b bs => rfl

theorem endsNl_append (p r : List Char) (h : r ≠ []) :
    endsNl (p ++ r) = endsNl r := by
  induction p with
  | nil => rfl
  | cons a p' ih =>
    rw [List.cons_append, endsNl_cons a (p' ++ r)
      (fun hc => h (List.append_eq_nil.mp hc).2), ih]

theorem dropTrailNl_append (p r : List Char) (h : r ≠ []) :
    dropTrailNl (p ++ r) = p ++ dropTrailNl r := by
  induction p with
  | nil => rfl
  | cons a p' ih =>
    rw [List.cons_append, dropTrailNl_cons a (p' ++ r)
      (fun hc => h (List.append_eq_nil.mp hc).2), ih, List.cons_append]

theorem endsNl_decomp :
    ∀ (cs : List Char), endsNl cs = true → cs = dropTrailNl cs ++ ['\n'] := by
  intro cs
  induction cs with
  | nil => intro h; simp [endsNl] at h
  | cons c cs' ih =>
    intro h
    cases cs' with
    | nil =>
      rw [endsNl] at h
      have hc : c = '\n' := by simpa using h
      subst hc
      rfl
    | cons c' cs'' =>
      rw [endsNl_cons c (c' :: cs'') (by simp)] at h
      rw [dropTrailNl_cons c (c' :: cs'') (by simp), List.cons_append,
        ← ih h]

theorem restOk_eq (cs : List Char) :
    restOk cs = (allPathB cs || (endsNl cs && allPathB (dropTrailNl cs))) := by
  induction cs with
  | nil => rfl
  | cons c cs' ih =>
    cases cs' with
    | nil =>
      by_cases h : c = '\n' <;>
        simp [restOk, allPathB, endsNl, dropTrailNl, h]
    | cons c' cs'' =>
      rw [restOk, ih, endsNl_cons c (c' :: cs'') (by simp),
        dropTrailNl_cons c (c' :: cs'') (by simp)]
      simp only [allPathB]
      cases isPathChar c <;> simp

theorem pathOk_eq (r : List Char) :
    pathOk r = (pathStrictOk r || (endsNl r && pathStrictOk (dropTrailNl r))) := by
  cases r with
  | nil => rfl
  | cons c cs =>
    cases cs with
    | nil =>
      by_cases h : c = '\n' <;>
        simp [pathOk, restOk, pathStrictOk, allPathB, endsNl, dropTrailNl, h]
    | cons c' cs' =>
      rw [pathOk, restOk_eq, pathStrictOk, endsNl_cons c (c' :: cs') (by simp),
        dropTrailNl_cons c (c' :: cs') (by simp), pathStrictOk]
      cases isPathChar c <;> simp

/-- List-level statement: the regex matcher accepts exactly the strict
grammar, or the strict grammar after removing one trailing newline. -/
theorem valid_list_eq (cs : List Char) :
    (match urlTail cs with | some r => pathOk r | none => false) =
    ((match urlTail cs with | some r => pathStrictOk r | none => false) ||
     (endsNl cs &&
       (match urlTail (dropTrailNl cs) with
        | some r => pathStrictOk r
        | none => false))) := by
  cases hu : urlTail cs with
  | some r =>
    obtain ⟨P, hP, rfl⟩ := urlTail_some_decomp cs r hu
    by_cases hr : r = []
    · subst hr
      have h1 : endsNl P = false := by
        have hall : ∀ Q ∈ fullPfxs, endsNl Q = false := by decide
        exact hall P hP
      simp [hu, h1, pathOk, pathStrictOk]
    · have hE : endsNl (P ++ r) = endsNl r := endsNl_append P r hr
      have hD : dropTrailNl (P ++ r) = P ++ dropTrailNl r := dropTrailNl_append P r hr
      have hu2 : urlTail (P ++ dropTrailNl r) = some (dropTrailNl r) :=
        urlTail_append P hP _
      simp only [hu, hE, hD, hu2]
      exact pathOk_eq r
  | none =>
    cases hnl : endsNl cs with
    | false => simp [hu, hnl]
    | true =>
      cases hu2 : urlTail (dropTrailNl cs) with
      | none => simp [hu, hu2, hnl]
      | some r' =>
        obtain ⟨P, hP, hPeq⟩ := urlTail_some_decomp _ r' hu2
        have hdecomp := endsNl_decomp cs hnl
        have hcontra : urlTail cs = some (r' ++ ['\n']) := by
          rw [hdecomp, hPeq, List.append_assoc]
          exact urlTail_append P hP _
        rw [hu] at hcontra
        exact absurd hcontra (by simp)

/-- String-level corollary used by the claims. -/
theorem is_valid_eq_grammar (u : String) :
    VideoFinder.is_valid_tiktok_url u =
      (grammarValid u || (strEndsNl u && grammarValid (strDropNl u))) :=
  valid_list_eq u.toList

/-- Instantiation of the loop lemma at the top-level call of get_result. -/
theorem get_result_webhook_timedOut (resp : ℕ → PollResp)
    (timeout poll_interval : ℕ) (hi : 0 < poll_interval)
    (hs : ∀ t, ∃ st items, resp t = .ok st items ∧ st ≠ some "completed") :
    ∃ T ps, Scraper.get_result_webhook resp timeout poll_interval = (ps, .timedOut T) ∧
      timeout ≤ T ∧ T < timeout + poll_interval ∧ ∀ p ∈ ps, p < timeout :=
  pollLoop_timedOut resp timeout poll_interval hi hs (timeout + 1) 0
    (by omega) (by omega)

/-!
## Claim theorems
-/

/-- C1 (amended): on the managed job-service backend, a run reported with
a non-success terminal status makes get_result raise immediately an
ApifyClientError whose message carries the backend's reported status (the
inner raise is re-wrapped by the enclosing handler); on the webhook
backend, however, a backend-reported failure status is NOT terminal for
the loop — any status other than "completed" is ignored and polling
continues until the deadline, ending in a TimeoutError. -/
theorem get_result_failure_status :
    (∀ (job_id : String) (items : String → List Json)
        (run : List (String × Json)) (s : String),
        run.isEmpty = false → runStatus run = s → s ≠ "SUCCEEDED" →
        Scraper.get_result_apify job_id (.ok (some run)) items =
          .error (.apifyClientError
            ("Error retrieving run results: Run failed with status: " ++ s))) ∧
    (∀ (resp : ℕ → PollResp) (timeout poll_interval : ℕ), 0 < poll_interval →
        (∀ t, ∃ items, resp t = .ok (some "failed") items) →
        ∃ T ps, Scraper.get_result_webhook resp timeout poll_interval =
          (ps, .timedOut T) ∧ timeout ≤ T) := by
  constructor
  · intro job_id items run s hemp hst hne
    rw [Scraper.get_result_apify, Scraper.get_result_apify_try]
    simp only [hemp, Bool.false_eq_true, if_false, hst, if_neg hne]
    rfl
  · intro resp timeout poll_interval hi hresp
    obtain ⟨T, ps, h1, h2, _, _⟩ :=
      get_result_webhook_timedOut resp timeout poll_interval hi
        (fun t => by
          obtain ⟨items, h⟩ := hresp t
          exact ⟨some "failed", items, h, by decide⟩)
    exact ⟨T, ps, h1, h2⟩

/-- C1 witness: a FAILED managed run raises at once with the status in
the message; a webhook job always reporting "failed" times out instead. -/
theorem get_result_failure_status_witness :
    Scraper.get_result_apify "job1" (.ok (some [("status", Json.str "FAILED")]))
      (fun _ => []) =
      .error (.apifyClientError
        "Error retrieving run results: Run failed with status: FAILED") ∧
    (∃ T ps, Scraper.get_result_webhook (fun _ => .ok (some "failed") []) 300 5 =
      (ps, .timedOut T) ∧ 300 ≤ T) :=
  ⟨get_result_failure_status.1 "job1" (fun _ => [])
      [("status", Json.str "FAILED")] "FAILED" rfl rfl (by decide),
   get_result_failure_status.2 (fun _ => .ok (some "failed") []) 300 5
      (by decide) (fun _ => ⟨[], rfl⟩)⟩

/-- C1 counterexample: with the default deadline 300 and interval 5, a
webhook job whose backend reports the failure status "failed" at every
poll does not fail immediately — get_result issues 60 status polls and
then raises the timeout, contradicting the claim for the webhook backend. -/
theorem get_result_webhook_failure_counterexample :
    (Scraper.get_result_webhook (fun _ => .ok (some "failed") []) 300 5).2 =
      .timedOut 300 ∧
    (Scraper.get_result_webhook (fun _ => .ok (some "failed") []) 300 5).1.length =
      60 :=
  ⟨rfl, rfl⟩

/-- C2: on a handle whose polled status never reaches a terminal state,
the webhook polling loop of get_result raises the timeout at a time T
with deadline ≤ T < deadline + poll_interval, and every status poll is
issued strictly before the deadline; the constructor defaults are 300
and 5 time-units. -/
theorem awaitResult_timeout_window (resp : ℕ → PollResp)
    (timeout poll_interval : ℕ) (hi : 0 < poll_interval)
    (hs : ∀ t, ∃ st items, resp t = .ok st items ∧ st ≠ some "completed") :
    (∃ T ps, Scraper.get_result_webhook resp timeout poll_interval =
      (ps, .timedOut T) ∧ timeout ≤ T ∧ T < timeout + poll_interval ∧
      ∀ p ∈ ps, p < timeout) ∧
    Scraper.default_timeout = 300 ∧ Scraper.default_poll_interval = 5 :=
  ⟨get_result_webhook_timedOut resp timeout poll_interval hi hs, rfl, rfl⟩

/-- C2 witness: concrete always-"running" backend with the defaults. -/
theorem awaitResult_timeout_window_witness :
    0 < 5 ∧
    ((∃ T ps, Scraper.get_result_webhook (fun _ => .ok (some "running") []) 300 5 =
      (ps, .timedOut T) ∧ 300 ≤ T ∧ T < 300 + 5 ∧ ∀ p ∈ ps, p < 300) ∧
      Scraper.default_timeout = 300 ∧ Scraper.default_poll_interval = 5) :=
  ⟨by decide,
   awaitResult_timeout_window (fun _ => .ok (some "running") []) 300 5 (by decide)
     (fun _ => ⟨some "running", [], rfl, by decide⟩)⟩

/-- C3 (amended): for both analyzers, a response that fails to parse as
JSON, or whose structure lacks the expected choices/message content,
yields exactly the fallback mapping with neutral = 1.0 and every other
emotion 0.0, without raising; but a response that parses as a JSON object
with a non-float-coercible value raises an uncaught error instead, and a
well-formed object with missing fields yields the partial parsed mapping
rather than the fallback. -/
theorem analyze_parse_failure_fallback (api_key openai_key : String)
    (texts : List String) (tr : Option String) (hk : api_key ≠ "dummy") :
    TextEmotionAnalyzer.analyze api_key texts .badJson = .ok textFallback ∧
    TextEmotionAnalyzer.analyze api_key texts .badStructure = .ok textFallback ∧
    AudioEmotionAnalyzer.analyze api_key openai_key tr .badJson = .ok audioFallback ∧
    AudioEmotionAnalyzer.analyze api_key openai_key tr .badStructure = .ok audioFallback ∧
    emotions.map (fun e => scoreGet textFallback e) = [0, 0, 0, 0, 0, 0, 1] ∧
    emotions.map (fun e => scoreGet audioFallback e) = [0, 0, 0, 0, 0, 0, 1] := by
  have hand : ¬(api_key = "dummy" ∧ openai_key = "dummy") := fun hc => hk hc.1
  refine ⟨?_, ?_, ?_, ?_, by decide, by decide⟩
  · rw [TextEmotionAnalyzer.analyze, if_neg hk]; rfl
  · rw [TextEmotionAnalyzer.analyze, if_neg hk]; rfl
  · rw [AudioEmotionAnalyzer.analyze, if_neg hand]
    by_cases ht : AudioEmotionAnalyzer.transcribe_audio api_key tr = "" <;>
      simp [ht, analyzeParse]
  · rw [AudioEmotionAnalyzer.analyze, if_neg hand]
    by_cases ht : AudioEmotionAnalyzer.transcribe_audio api_key tr = "" <;>
      simp [ht, analyzeParse]

/-- C3 witness: concrete live credentials and malformed responses. -/
theorem analyze_parse_failure_fallback_witness :
    ("sk-live" : String) ≠ "dummy" ∧
    TextEmotionAnalyzer.analyze "sk-live" ["hello"] .badJson = .ok textFallback ∧
    AudioEmotionAnalyzer.analyze "sk-live" "sk-live" (some "hi") .badJson =
      .ok audioFallback :=
  ⟨by decide,
   (analyze_parse_failure_fallback "sk-live" "sk-live" ["hello"] (some "hi")
      (by decide)).1,
   (analyze_parse_failure_fallback "sk-live" "sk-live" ["hello"] (some "hi")
      (by decide)).2.2.1⟩

/-- C3 counterexample: a JSON-object response with the non-numeric value
"very high" makes analyze raise an uncaught ValueError (float() is outside
the caught exception tuple), and a parsed object missing six of the seven
emotion fields is returned as-is, not replaced by the fallback — both
contradict the claim that every parse/format failure yields the fallback
and never raises. -/
theorem analyze_nonnumeric_raises :
    TextEmotionAnalyzer.analyze "sk-live" []
      (.json (.obj [("joy", .str "very high")])) = .error .valueError ∧
    TextEmotionAnalyzer.analyze "sk-live" []
      (.json (.obj [("joy", .num 1)])) = .ok [("joy", 1)] ∧
    AudioEmotionAnalyzer.analyze "sk-live" "sk-live" (some "hello")
      (.json (.obj [("joy", .str "very high")])) = .error .valueError :=
  ⟨rfl, rfl, rfl⟩

/-- Concrete records for the correlator witnesses: two videos with likes
and views, one comment list of two entries. -/
def vdW : List VideoData :=
  [⟨"https://example.com/video1", ["c1", "c2"],
    [("likes", .num 100), ("views", .num 1000)]⟩,
   ⟨"https://example.com/video2", [],
    [("likes", .num 200), ("views", .num 2000)]⟩]

def tsW : List (String × ℚ) := [("joy", 8 / 10)]

/-- C4 (amended): for every non-empty record list whose metadata values
are all float-coercible, Correlator.compute returns exactly the spec's
correlation map: the 28 emotion_vs_field keys in emotion-major order with
round(combined/fieldMean*100, 2) for positive field means and 0.0
otherwise, followed by the seven emotion_comment_ratio keys if and only
if the total comment count is positive, and no other keys. -/
theorem compute_matches_spec (vd : List VideoData) (ts as : List (String × ℚ))
    (hne : vd.length ≠ 0) (h : MetaOk vd) :
    Correlator.compute vd ts as = .ok (correlateSpec vd ts as) ∧
    (correlateSpec vd ts as).map Prod.fst =
      (emotions.flatMap (fun e => metadata_fields.map (fun f => e ++ "_vs_" ++ f))) ++
        (if 0 < totalComments vd then
          emotions.map (fun e => e ++ "_comment_ratio")
        else []) ∧
    (emotions.flatMap (fun e => metadata_fields.map (fun f => e ++ "_vs_" ++ f))).length =
      28 := by
  refine ⟨compute_eq_spec vd ts as h, ?_, by decide⟩
  rw [correlateSpec, if_neg hne, List.map_append, List.map_flatMap]
  by_cases hc : 0 < totalComments vd <;> simp [hc, List.map_map, Function.comp_def]

/-- C4 witness: the two-record example; joy combines to 0.4, the likes
mean is 150 and round(0.4 / 150 * 100, 2) = 0.27. -/
theorem compute_matches_spec_witness :
    vdW.length ≠ 0 ∧ MetaOk vdW ∧
    Correlator.compute vdW tsW [] = .ok (correlateSpec vdW tsW []) ∧
    alookup (correlateSpec vdW tsW []) "joy_vs_likes" = some (27 / 100) ∧
    alookup (correlateSpec vdW tsW []) "joy_comment_ratio" = some 20 :=
  ⟨by decide, by decide,
   (compute_matches_spec vdW tsW [] (by decide) (by decide)).1,
   by with_unfolding_all rfl, by with_unfolding_all rfl⟩

/-- C4 counterexample: a record whose views value is JSON null makes
compute raise TypeError (float(None)), so the claim's universal
quantification over arbitrary records fails — no correlation map is
returned at this input. -/
theorem compute_null_metadata_counterexample :
    Correlator.compute [⟨"v", ["c"], [("views", Json.null)]⟩] [("joy", 1)] [] =
      .error .typeError :=
  rfl

/-- C5 (amended): Correlator.compute returns the empty map on an empty
record list, and returns normally (is total) on every input whose
metadata values all coerce under float(); it raises on records carrying
non-coercible scalars such as non-numeric strings. -/
theorem compute_total_on_coercible (ts as : List (String × ℚ)) :
    Correlator.compute [] ts as = .ok [] ∧
    (∀ vd, MetaOk vd → ∃ m, Correlator.compute vd ts as = .ok m) :=
  ⟨rfl, fun vd h => ⟨correlateSpec vd ts as, compute_eq_spec vd ts as h⟩⟩

/-- C5 witness: empty-input shortcut and totality at concrete records. -/
theorem compute_total_on_coercible_witness :
    MetaOk vdW ∧ (∃ m, Correlator.compute vdW tsW [] = .ok m) ∧
    Correlator.compute [] tsW [] = .ok [] :=
  ⟨by decide, (compute_total_on_coercible tsW []).2 vdW (by decide),
   (compute_total_on_coercible tsW []).1⟩

/-- C5 counterexample: the metadata value "banana" under likes raises an
uncaught ValueError inside compute (float("banana")), contradicting the
claim that compute never raises for arbitrary scalar metadata. -/
theorem compute_string_metadata_counterexample :
    Correlator.compute [⟨"v", [], [("likes", Json.str "banana")]⟩] [] [] =
      .error .valueError :=
  rfl

/-- C6 (amended): for every non-empty direct URL the call returns [u]
exactly when the Python regex accepts u, and the regex accepts exactly
the spec's grammar — or the grammar after removing one trailing newline
(re.match's `$` semantics); for the empty string the truthiness test
`if direct_url:` fails and the call falls back to the topic lookup, as
it does when no direct URL is given; the call never raises. -/
theorem get_videos_direct_url (topic u : String) :
    (u ≠ "" → VideoFinder.get_videos topic (some u) =
      (if VideoFinder.is_valid_tiktok_url u then [u] else [])) ∧
    VideoFinder.get_videos topic (some "") = video_mapping topic ∧
    VideoFinder.get_videos topic none = video_mapping topic ∧
    VideoFinder.is_valid_tiktok_url u =
      (grammarValid u || (strEndsNl u && grammarValid (strDropNl u))) := by
  refine ⟨?_, rfl, rfl, is_valid_eq_grammar u⟩
  intro hu
  show (if u ≠ "" then
      (if VideoFinder.is_valid_tiktok_url u then [u] else [])
    else video_mapping topic) = _
  rw [if_pos hu]

/-- C6 witness: a grammar-valid URL is returned verbatim as [u]. -/
theorem get_videos_direct_url_witness :
    ("https://www.tiktok.com/@chef" : String) ≠ "" ∧
    VideoFinder.get_videos "cooking" (some "https://www.tiktok.com/@chef") =
      (if VideoFinder.is_valid_tiktok_url "https://www.tiktok.com/@chef" then
        ["https://www.tiktok.com/@chef"]
      else []) :=
  ⟨by decide,
   (get_videos_direct_url "cooking" "https://www.tiktok.com/@chef").1 (by decide)⟩

/-- C6 counterexample: the empty direct URL does not return [] — it falls
through to the topic lookup and returns the ten cooking URLs; and a URL
with a trailing newline is outside the claimed grammar yet is returned
verbatim, because re.match's `$` accepts it. -/
theorem get_videos_counterexample :
    VideoFinder.get_videos "cooking" (some "") = cooking_urls ∧
    cooking_urls.length = 10 ∧
    VideoFinder.get_videos "other" (some "https://www.tiktok.com/a\n") =
      ["https://www.tiktok.com/a\n"] ∧
    grammarValid "https://www.tiktok.com/a\n" = false :=
  ⟨rfl, rfl, rfl, rfl⟩

/-- C7 (amended): under the sentinel credential "dummy" both analyzers
return a fixed score mapping on every call, independent of the input and
of the API oracle (hence with no network access), with every label drawn
from the seven emotion labels and every value in [0, 1]; the audio
mapping covers all seven labels, but the text mapping contains only the
five labels joy, sadness, anger, fear, surprise. -/
theorem sentinel_deterministic (texts : List String) (resp resp2 : ApiResponse)
    (tr : Option String) :
    TextEmotionAnalyzer.analyze "dummy" texts resp = .ok textDummyScores ∧
    AudioEmotionAnalyzer.analyze "dummy" "dummy" tr resp2 = .ok audioDummyScores ∧
    audioDummyScores.map Prod.fst = emotions ∧
    textDummyScores.map Prod.fst =
      ["joy", "sadness", "anger", "fear", "surprise"] ∧
    (∀ p ∈ textDummyScores, p.1 ∈ emotions ∧ 0 ≤ p.2 ∧ p.2 ≤ 1) ∧
    (∀ p ∈ audioDummyScores, p.1 ∈ emotions ∧ 0 ≤ p.2 ∧ p.2 ≤ 1) := by
  refine ⟨rfl, rfl, rfl, rfl, ?_, ?_⟩ <;>
    (intro p hp; fin_cases hp) <;>
      exact ⟨by decide, by norm_num, by norm_num⟩

/-- C7 witness: the sentinel result at a concrete input, and the bound
facts at one concrete label of each mapping. -/
theorem sentinel_deterministic_witness :
    (TextEmotionAnalyzer.analyze "dummy" ["hello"] .badJson = .ok textDummyScores) ∧
    (("joy", (8 : ℚ) / 10) ∈ textDummyScores ∧
      ("joy" : String) ∈ emotions ∧ (0 : ℚ) ≤ 8 / 10 ∧ (8 : ℚ) / 10 ≤ 1) :=
  ⟨(sentinel_deterministic ["hello"] .badJson .badStructure none).1,
   List.mem_cons_self _ _,
   (sentinel_deterministic ["hello"] .badJson .badStructure none).2.2.2.2.1
     ("joy", 8 / 10) (List.mem_cons_self _ _)⟩

/-- C7 counterexample: the text analyzer's sentinel-mode mapping omits
disgust and neutral, so its key set is not the closed seven-label set the
claim asserts. -/
theorem sentinel_text_missing_labels :
    TextEmotionAnalyzer.analyze "dummy" ["any input"] .badJson = .ok textDummyScores ∧
    alookup textDummyScores "disgust" = none ∧
    alookup textDummyScores "neutral" = none ∧
    textDummyScores.length = 5 :=
  ⟨rfl, rfl, rfl, rfl⟩

/-- C8 (amended): when the backend accepts the submission but its
response carries no job handle, start_scrape returns a null handle
normally instead of failing: the webhook branch returns
data.get("job_id") = None, and the managed branch returns
run.get("id") = None whenever a non-empty run dict lacks the id; only a
missing or empty run object (falsy) raises the wrapped ApifyClientError. -/
theorem start_scrape_missing_handle :
    (∀ kvs, alookup kvs "job_id" = none →
      Scraper.start_scrape_webhook (.resp (some (.obj kvs))) = .ok none) ∧
    Scraper.start_scrape_apify (.ok none) =
      .error (.apifyClientError
        "Failed to start scrape job: Failed to start task, no run data returned") ∧
    (∀ run, run.isEmpty = false → alookup run "id" = none →
      Scraper.start_scrape_apify (.ok (some run)) = .ok none) := by
  refine ⟨?_, rfl, ?_⟩
  · intro kvs h
    show Except.ok (alookup kvs "job_id") = Except.ok none
    rw [h]
  · intro run hemp h
    rw [Scraper.start_scrape_apify]
    simp only [hemp, Bool.false_eq_true, if_false, h]

/-- C8 witness: accepted responses with no identifiable handle. -/
theorem start_scrape_missing_handle_witness :
    alookup [("ack", Json.bool true)] "job_id" = none ∧
    Scraper.start_scrape_webhook (.resp (some (.obj [("ack", Json.bool true)]))) =
      .ok none ∧
    Scraper.start_scrape_apify (.ok (some [("startedAt", Json.str "now")])) =
      .ok none :=
  ⟨rfl,
   start_scrape_missing_handle.1 [("ack", Json.bool true)] rfl,
   start_scrape_missing_handle.2.2 [("startedAt", Json.str "now")] rfl rfl⟩

/-- C8 counterexample: a webhook backend that accepts the request and
answers with a JSON object lacking job_id makes start_scrape return
normally with a null handle — it does not fail with any error variant,
contradicting the claim. -/
theorem start_scrape_no_handle_counterexample :
    Scraper.start_scrape_webhook (.resp (some (.obj [("status", Json.str "ok")]))) =
      .ok none :=
  rfl

/-- C9 (amended): without a live generative-text credential, generate
returns the fixed canned list truncated to count — the result length is
min(count, 3), never padded up to count. -/
theorem generate_offline_truncates (live : List String)
    (corr : List (String × ℚ)) (n : ℕ) :
    InsightGenerator.generate false live corr n = cannedInsights.take n ∧
    (InsightGenerator.generate false live corr n).length = min n 3 := by
  constructor
  · rfl
  · show (cannedInsights.take n).length = min n 3
    rw [List.length_take]
    rfl

/-- C9 counterexample: requesting four insights returns only the three
canned ones — the list is not padded to length four as claimed. -/
theorem generate_no_padding_counterexample :
    InsightGenerator.generate false [] [] 4 = cannedInsights ∧
    (InsightGenerator.generate false [] [] 4).length = 3 :=
  ⟨rfl, rfl⟩

/-- Is the JSON value a number? -/
def isNumJ : Json → Bool
  | .num _ => true
  | _ => false

/-- Numeric value of a JSON number (0 otherwise). -/
def numVal : Json → ℚ
  | .num q => q
  | _ => 0

/-- C10: on the live path, a response parsing as a JSON object of numeric
values is returned with exactly the object's own keys coerced to floats —
keys outside the seven labels pass through and absent labels are not
added, so the key list is whatever the API returned. -/
theorem analyze_live_passthrough (api_key : String) (texts : List String)
    (kvs : List (String × Json)) (hk : api_key ≠ "dummy")
    (hnum : ∀ p ∈ kvs, isNumJ p.2 = true) :
    TextEmotionAnalyzer.analyze api_key texts (.json (.obj kvs)) =
      .ok (kvs.map (fun p => (p.1, numVal p.2))) ∧
    (kvs.map (fun p => (p.1, numVal p.2))).map Prod.fst = kvs.map Prod.fst := by
  constructor
  · rw [TextEmotionAnalyzer.analyze, if_neg hk]
    show analyzeParse (ApiResponse.json (.obj kvs)) textFallback = _
    have h1 : coerceScores (.obj kvs) =
        .ok (kvs.map (fun p => (p.1, numVal p.2))) := by
      show exMapM _ kvs = _
      refine exMapM_ok _ _ kvs ?_
      intro p hp
      have hn := hnum p hp
      cases hp2 : p.2
      case num q => simp [hp2, pyFloat, numVal]
      all_goals (rw [hp2] at hn; simp [isNumJ] at hn)
    show (match coerceScores (.obj kvs) with
      | .ok scores => Except.ok scores
      | .error e => Except.error e) = _
    rw [h1]
  · rw [List.map_map]
    rfl

/-- C10 witness: a response with one emotion label and one foreign key. -/
def kvsW : List (String × Json) := [("joy", .num (1 / 2)), ("confidence", .num 2)]

theorem analyze_live_passthrough_witness :
    ("sk-live" : String) ≠ "dummy" ∧ (∀ p ∈ kvsW, isNumJ p.2 = true) ∧
    TextEmotionAnalyzer.analyze "sk-live" [] (.json (.obj kvsW)) =
      .ok (kvsW.map (fun p => (p.1, numVal p.2))) :=
  ⟨by decide, by decide,
   (analyze_live_passthrough "sk-live" [] kvsW (by decide) (by decide)).1⟩
